import Mathlib

/-!
Shallow embedding of the drop CLI (src/drops/drop.py) and of the local-mode
manifest upsert described by the specification.

The modelling conventions:
* Python strings are Lean `String`; the Python string methods used by the
  source (`strip`, `splitlines`, `startswith`, slicing, `split`) are
  re-implemented below on the underlying character list, following the
  documented Python semantics for the ASCII range.
* `None`-or-string values are `Option String`; Python truthiness on them is
  `pyTruthyOpt` (false for `None` and for the empty string).
* The filesystem is a function from path to optional file content; the hub
  is a function from a request to a reply; command execution is a pure
  function returning the exit code, the list of hub requests that were
  issued, the lines printed to the error stream, and whether help was shown.
-/

namespace DropPy

/-- Python `str.strip()` whitespace set (ASCII part). -/
def pyIsSpace (c : Char) : Bool :=
  c = ' ' || c = '\t' || c = '\n' || c = '\r' || c = '\x0b' || c = '\x0c'

/-- Strip characters satisfying `p` from both ends of a character list. -/
def stripChars (p : Char → Bool) (l : List Char) : List Char :=
  ((l.dropWhile p).reverse.dropWhile p).reverse

/-- Python `str.strip()` (no arguments): strip whitespace from both ends. -/
def pyStrip (s : String) : String :=
  ⟨stripChars pyIsSpace s.data⟩

/-- The double-quote and single-quote characters, the argument of the
`.strip` call in the credential scan of drop.py. -/
def isQuoteChar (c : Char) : Bool :=
  c = Char.ofNat 34 || c = Char.ofNat 39

/-- Python `str.strip("\x22\x27")`: strip quote characters from both ends. -/
def pyStripQuotes (s : String) : String :=
  ⟨stripChars isQuoteChar s.data⟩

/-- Python `s.startswith(pre)`. -/
def pyStartswith (s pre : String) : Bool :=
  pre.data.isPrefixOf s.data

/-- Python slicing `s[n:]`. -/
def pyDrop (s : String) (n : Nat) : String :=
  ⟨s.data.drop n⟩

/-- Line-boundary characters recognised by Python `str.splitlines()`. -/
def isLineBreakChar (c : Char) : Bool :=
  c = '\n' || c = '\r' || c = '\x0b' || c = '\x0c' ||
  c = '\x1c' || c = '\x1d' || c = '\x1e' || c = '\x85' ||
  c = '\u2028' || c = '\u2029'

/-- Worker for `pySplitlines`: `acc` holds the current line reversed.
Like Python, a trailing line terminator does not produce a final empty
line, and a CR-LF pair counts as a single boundary. -/
def splitlinesAux : List Char → List Char → List (List Char)
  | [], [] => []
  | [], acc => [acc.reverse]
  | '\r' :: '\n' :: rest, acc => acc.reverse :: splitlinesAux rest []
  | c :: rest, acc =>
    if isLineBreakChar c then acc.reverse :: splitlinesAux rest []
    else splitlinesAux rest (c :: acc)

/-- Python `str.splitlines()`. -/
def pySplitlines (s : String) : List String :=
  (splitlinesAux s.data []).map (fun l => ⟨l⟩)

/-- Worker for `pySplitChar`. -/
def splitOnCharAux (sep : Char) : List Char → List Char → List (List Char)
  | [], acc => [acc.reverse]
  | c :: rest, acc =>
    if c = sep then acc.reverse :: splitOnCharAux sep rest []
    else splitOnCharAux sep rest (c :: acc)

/-- Python `str.split(sep)` for a one-character separator. -/
def pySplitChar (s : String) (sep : Char) : List String :=
  (splitOnCharAux sep s.data []).map (fun l => ⟨l⟩)

/-- Python truthiness of a `None`-or-string value: `None` and the empty
string are falsy. -/
def pyTruthyOpt : Option String → Bool
  | none => false
  | some s => !(s == "")

/-- Python `a or b` where `a` is a `None`-or-string value and `b` a string:
`b` when `a` is `None` or empty, otherwise the string in `a`. -/
def pyOrS (a : Option String) (b : String) : String :=
  match a with
  | some s => if s = "" then b else s
  | none => b

/-- Everything after the first `=` character (Python
`line.split("\x3d", 1)[1]`; in drop.py the line is known to contain `=`). -/
def afterFirstEq : List Char → List Char
  | [] => []
  | '=' :: rest => rest
  | _ :: rest => afterFirstEq rest

/-- `pathlib.Path(p).name` for an ordinary relative or absolute path: the
last nonempty slash-separated component. -/
def pathName (p : String) : String :=
  (((pySplitChar p '/').filter (fun s => !(s == ""))).getLast?).getD ""

/-- Index of the last `.` in a character list, if any. -/
def rlastDotIdx (l : List Char) : Option Nat :=
  ((List.range l.length).filter (fun i => l.getD i ' ' == '.')).getLast?

/-- `pathlib.Path(p).stem`: the final component without its suffix; the
suffix is counted only when the last dot is neither the first nor the last
character of the name. -/
def pathStem (p : String) : String :=
  let name := pathName p
  let nd := name.data
  match rlastDotIdx nd with
  | some i => if 0 < i ∧ i < nd.length - 1 then ⟨nd.take i⟩ else name
  | none => name

/-- drop.py `extract_title`, the loop over the lines of the text:
return the first line whose stripped form starts with a level-1 heading
marker, with the marker removed and the remainder stripped. -/
def extract_title_lines : List String → Option String
  | [] => none
  | line :: rest =>
    let stripped := pyStrip line
    if pyStartswith stripped "# " then some (pyStrip (pyDrop stripped 2))
    else extract_title_lines rest

/-- drop.py `extract_title` (lines 70-75). -/
def extract_title (text : String) : Option String :=
  extract_title_lines (pySplitlines text)

/-- The value contributed by one candidate configuration file: the stripped,
unquoted value of the first line starting with the assignment key, or the
empty string when the file has no such line (drop.py lines 40-43: the inner
loop breaks at the first match). -/
def fileKeyValue (lines : List String) : String :=
  match lines.find? (fun l => pyStartswith l "INGEST_API_KEY=") with
  | some l => pyStripQuotes (pyStrip ⟨afterFirstEq l.data⟩)
  | none => ""

/-- drop.py lines 33-45: scan the candidate configuration files in order
(`none` stands for a file that does not exist); after a file is processed,
scanning stops only when the accumulated key is truthy (nonempty). -/
def scanConfig : List (Option (List String)) → String
  | [] => ""
  | none :: rest => scanConfig rest
  | some lines :: rest =>
    let v := fileKeyValue lines
    if v = "" then scanConfig rest else v

/-- drop.py lines 30-45: the module-level resolution of `API_KEY` from the
primary environment variable `DROP_API_KEY`, the alias `INGEST_API_KEY`
(both read with Python `or`, hence by truthiness), and then the candidate
configuration files. -/
def resolve_api_key (dropKey ingestKey : Option String)
    (files : List (Option (List String))) : String :=
  let k :=
    match dropKey with
    | some v => if v = "" then ingestKey.getD "" else v
    | none => ingestKey.getD ""
  if k = "" then scanConfig files else k

/-- drop.py line 93: `args.title or extract_title(content) or
(Path(args.file).stem if not args.stdin else "stdin-drop")`. -/
def resolve_title (titleArg : Option String) (content : String)
    (isStdin : Bool) (file : String) : String :=
  pyOrS titleArg
    (pyOrS (extract_title content)
      (if isStdin then "stdin-drop" else pathStem file))

/-- The parsed command-line arguments of drop.py `main` (lines 158-173),
with `argparse` defaults already applied: optional strings default to
`None`, the flags to false, `limit` to 20. -/
structure Args where
  file : Option String
  stdin : Bool
  sender : Option String
  drop_type : Option String
  title : Option String
  tags : Option String
  list : Bool
  since : Option String
  limit : Int
  drop_id : Option String
deriving DecidableEq

/-- The JSON body drop.py `cmd_drop` POSTs to the hub (lines 95-101). -/
structure DropRequest where
  from_agent : String
  title : String
  content : String
  drop_type : String
  tags : List String
deriving DecidableEq

/-- One request issued to the hub through `api_request`: HTTP method, path,
optional JSON body, and query parameters in insertion order. -/
structure HubCall where
  method : String
  path : String
  body : Option DropRequest
  params : List (String × String)
deriving DecidableEq

/-- The hub reply as seen through `urlopen`: success, or an HTTP error
carrying the status code and the error body. -/
inductive HubReply where
  | ok : HubReply
  | err : Nat → String → HubReply
deriving DecidableEq

/-- Observable outcome of one invocation of the CLI: process exit code,
hub requests issued (in order), lines printed to the error stream, and
whether the argparse help text was shown. -/
structure ExecResult where
  exitCode : Nat
  calls : List HubCall
  stderr : List String
  helpShown : Bool
deriving DecidableEq

/-- The diagnostic `api_request` prints on an HTTP error (line 66). -/
def apiErrorMsg (code : Nat) (body : String) : String :=
  "API error (" ++ toString code ++ "): " ++ body

/-- Outcome of a command whose single hub request is `call` and whose hub
reply is `reply`: on error, `api_request` prints the diagnostic and exits
with status 1 (lines 61-67); on success the command finishes normally. -/
def finishCall (call : HubCall) (reply : HubReply) : ExecResult :=
  match reply with
  | HubReply.ok => ⟨0, [call], [], false⟩
  | HubReply.err code body => ⟨1, [call], [apiErrorMsg code body], false⟩

/-- drop.py `cmd_drop` lines 89-101: resolve sender and type by truthiness
to their defaults, resolve the title, and build the POST body. -/
def build_drop_request (args : Args) (content : String) : DropRequest :=
  let sender := if pyTruthyOpt args.sender then args.sender.getD "" else "claude-code"
  let dtype := if pyTruthyOpt args.drop_type then args.drop_type.getD "" else "context"
  { from_agent := sender
    title := resolve_title args.title content args.stdin (args.file.getD "")
    content := content
    drop_type := dtype
    tags := if pyTruthyOpt args.tags then pySplitChar (args.tags.getD "") ',' else [] }

/-- drop.py `cmd_drop` (lines 78-110): read the content from stdin or from
the file (exiting with status 1 and a missing-file diagnostic when the file
does not exist), then POST the constructed record. -/
def run_drop (args : Args) (fsys : String → Option String)
    (stdinText : String) (hub : HubCall → HubReply) : ExecResult :=
  if args.stdin then
    finishCall ⟨"POST", "/api/agent-drops", some (build_drop_request args stdinText), []⟩
      (hub ⟨"POST", "/api/agent-drops", some (build_drop_request args stdinText), []⟩)
  else
    let file := args.file.getD ""
    match fsys file with
    | none => ⟨1, [], ["File not found: " ++ file], false⟩
    | some content =>
      finishCall ⟨"POST", "/api/agent-drops", some (build_drop_request args content), []⟩
        (hub ⟨"POST", "/api/agent-drops", some (build_drop_request args content), []⟩)

/-- drop.py `cmd_list` lines 115-123: the query parameters, each included
only when its argument is truthy (for `limit`, nonzero). -/
def listParams (args : Args) : List (String × String) :=
  (if pyTruthyOpt args.sender then [("from_agent", args.sender.getD "")] else []) ++
  (if pyTruthyOpt args.drop_type then [("drop_type", args.drop_type.getD "")] else []) ++
  (if pyTruthyOpt args.since then [("since", args.since.getD "")] else []) ++
  (if args.limit ≠ 0 then [("limit", toString args.limit)] else [])

/-- drop.py `cmd_list` (lines 113-139), up to the hub exchange; the
stdout rendering of the returned drops is presentation only. -/
def run_list (args : Args) (hub : HubCall → HubReply) : ExecResult :=
  finishCall ⟨"GET", "/api/agent-drops", none, listParams args⟩
    (hub ⟨"GET", "/api/agent-drops", none, listParams args⟩)

/-- drop.py `cmd_read` (lines 142-149), up to the hub exchange. -/
def run_read (args : Args) (hub : HubCall → HubReply) : ExecResult :=
  finishCall ⟨"GET", "/api/agent-drops/" ++ args.drop_id.getD "", none, []⟩
    (hub ⟨"GET", "/api/agent-drops/" ++ args.drop_id.getD "", none, []⟩)

/-- drop.py `main` (lines 152-189) after argument parsing: the API-key
check, then the dispatch chain `--read`, `--list`, file-or-stdin drop,
help. -/
def run_main (apiKey : String) (args : Args) (fsys : String → Option String)
    (stdinText : String) (hub : HubCall → HubReply) : ExecResult :=
  if apiKey = "" then
    ⟨1, [],
      ["No API key found. Set DROP_API_KEY or INGEST_API_KEY env var,",
       "or create a .env file with INGEST_API_KEY=..."], false⟩
  else if pyTruthyOpt args.drop_id then run_read args hub
  else if args.list then run_list args hub
  else if pyTruthyOpt args.file || args.stdin then run_drop args fsys stdinText hub
  else ⟨0, [], [], true⟩

/-- The whole program: module-level credential resolution (lines 29-45)
followed by `main`. -/
def run_cli (dropKey ingestKey : Option String)
    (files : List (Option (List String))) (args : Args)
    (fsys : String → Option String) (stdinText : String)
    (hub : HubCall → HubReply) : ExecResult :=
  run_main (resolve_api_key dropKey ingestKey files) args fsys stdinText hub

/-- A drop record of the local-mode manifest, keyed by `id`. -/
structure LocalRecord where
  id : String
  sender : String
  title : String
  timestamp : String
deriving DecidableEq

/-- Modelled from the spec: the local-mode manifest upsert of section 4.3
(the local-mode implementation is not under src/). `upsert(manifest,
record)` removes any existing record sharing the id of `record` and then
appends `record` at the end. -/
def upsert (manifest : List LocalRecord) (record : LocalRecord) : List LocalRecord :=
  (manifest.filter (fun r => r.id ≠ record.id)) ++ [record]

/-! ### Helper lemmas -/

theorem stripChars_eq_nil_iff (p : Char → Bool) (l : List Char) :
    stripChars p l = [] ↔ ∀ c ∈ l, p c := by
  unfold stripChars
  rw [List.reverse_eq_nil_iff, List.dropWhile_eq_nil_iff]
  constructor
  · intro h c hc
    have hc2 : c ∈ l.takeWhile p ++ l.dropWhile p := by
      rw [List.takeWhile_append_dropWhile p l]; exact hc
    rcases List.mem_append.mp hc2 with h1 | h2
    · exact List.mem_takeWhile_imp h1
    · exact h c (List.mem_reverse.mpr h2)
  · intro h c hc
    exact h c ((List.dropWhile_sublist p).subset (List.mem_reverse.mp hc))

theorem stripChars_getLast?_not (p : Char → Bool) (l : List Char) (c : Char)
    (h : (stripChars p l).getLast? = some c) : p c = false := by
  unfold stripChars at h
  rw [List.getLast?_reverse] at h
  have hmatch := List.head?_dropWhile_not p ((l.dropWhile p).reverse)
  rw [h] at hmatch
  exact hmatch

theorem extract_title_lines_eq (lines : List String) :
    extract_title_lines lines
      = (lines.find? (fun l => pyStartswith (pyStrip l) "# ")).map
          (fun l => pyStrip (pyDrop (pyStrip l) 2)) := by
  induction lines with
  | nil => rfl
  | cons line rest ih =>
    by_cases h : pyStartswith (pyStrip line) "# " = true
    · simp [extract_title_lines, h]
    · simp only [Bool.not_eq_true] at h
      simp [extract_title_lines, h, ih]

theorem pyDrop_two_marker (t : String) : pyDrop ("# " ++ t) 2 = t := by
  obtain ⟨td⟩ := t
  rfl

/-- The extracted heading is never the empty string: the stripped heading
line ends in a non-whitespace character, which survives the final strip. -/
theorem extract_title_ne_empty (text s : String)
    (h : extract_title text = some s) : s ≠ "" := by
  rw [extract_title, extract_title_lines_eq] at h
  obtain ⟨l, hfind, hs⟩ := Option.map_eq_some'.mp h
  have hpred0 := List.find?_some hfind
  have hpred : pyStartswith (pyStrip l) "# " = true := hpred0
  rw [pyStartswith] at hpred
  rw [show ("# " : String).data = ['#', ' '] from rfl] at hpred
  obtain ⟨rest, hrest⟩ : ∃ rest, (pyStrip l).data = '#' :: ' ' :: rest := by
    cases hd2 : (pyStrip l).data with
    | nil => rw [hd2] at hpred; simp [List.isPrefixOf] at hpred
    | cons c1 d1 =>
      cases d1 with
      | nil => rw [hd2] at hpred; simp [List.isPrefixOf] at hpred
      | cons c2 d2 =>
        rw [hd2] at hpred
        simp only [List.isPrefixOf, List.isPrefixOf_nil_left, Bool.and_true,
          Bool.and_eq_true, beq_iff_eq] at hpred
        obtain ⟨h1, h2⟩ := hpred
        subst h1; subst h2
        exact ⟨d2, rfl⟩
  have hdrop : pyDrop (pyStrip l) 2 = (⟨rest⟩ : String) := by
    show (⟨(pyStrip l).data.drop 2⟩ : String) = ⟨rest⟩
    rw [hrest]
    rfl
  have hs2 : s = (⟨stripChars pyIsSpace rest⟩ : String) := by
    rw [← hs, hdrop]; rfl
  intro hempty
  rw [hempty] at hs2
  have hnil : stripChars pyIsSpace rest = [] := (congrArg String.data hs2).symm
  have hall : ∀ c ∈ rest, pyIsSpace c := (stripChars_eq_nil_iff _ _).mp hnil
  have hline : (pyStrip l).data = stripChars pyIsSpace l.data := rfl
  cases rest with
  | nil =>
    have hlast : (stripChars pyIsSpace l.data).getLast? = some ' ' := by
      rw [← hline, hrest]; rfl
    have hbad := stripChars_getLast?_not pyIsSpace l.data ' ' hlast
    simp [pyIsSpace] at hbad
  | cons r rs =>
    cases hc : (r :: rs).getLast? with
    | none => simp at hc
    | some c =>
      have hlast : (stripChars pyIsSpace l.data).getLast? = some c := by
        rw [← hline, hrest]
        simpa using hc
      have hfalse := stripChars_getLast?_not pyIsSpace l.data c hlast
      have htrue := hall c (List.mem_of_getLast?_eq_some hc)
      rw [htrue] at hfalse
      simp at hfalse

/-! ### Claim theorems -/

/-- C1: title extraction scans the lines in order; it returns the text
following the marker of the first line whose stripped form starts with
the level-1 heading marker (so when that first heading line strips to
the marker followed by an already-stripped text `t`, it returns `t`),
and it returns `none` when no line of the text has that form. -/
theorem extract_title_correct (text : String) :
    ((∀ l ∈ pySplitlines text, pyStartswith (pyStrip l) "# " = false) →
      extract_title text = none)
    ∧ (∀ l t,
        (pySplitlines text).find? (fun l => pyStartswith (pyStrip l) "# ") = some l →
        pyStrip l = "# " ++ t → pyStrip t = t →
        extract_title text = some t) := by
  constructor
  · intro h
    have hnone : (pySplitlines text).find? (fun l => pyStartswith (pyStrip l) "# ") = none :=
      List.find?_eq_none.mpr (fun x hx => by simp [h x hx])
    rw [extract_title, extract_title_lines_eq, hnone]
    rfl
  · intro l t hfind hstrip ht
    rw [extract_title, extract_title_lines_eq, hfind]
    simp only [Option.map_some']
    rw [hstrip, pyDrop_two_marker, ht]

/-- Witness for C1: a text whose first heading line is `# Foo`, and a text
with no heading line. -/
theorem extract_title_correct_witness :
    extract_title "intro\n# Foo\nbody" = some "Foo"
    ∧ extract_title "plain text\nhere" = none :=
  ⟨(extract_title_correct "intro\n# Foo\nbody").2 "# Foo" "Foo"
      (by decide) (by decide) (by decide),
   (extract_title_correct "plain text\nhere").1 (by decide)⟩

/-- C2 counterexample: an explicitly supplied empty title argument is not
used; the heading extracted from the content wins instead, so the explicit
argument does not always take precedence when given. -/
theorem resolve_title_claim_cex :
    resolve_title (some "") "# Hello\nbody" false "note.md" = "Hello"
    ∧ ("Hello" : String) ≠ "" := by
  exact ⟨by decide, by decide⟩

/-- C2 (amended): the title is resolved by the precedence: an explicit
non-empty title argument when given; otherwise the heading extracted from
the content; otherwise the derived default, the stem of the input file for
file input or the fixed placeholder for stream input. -/
theorem resolve_title_precedence (titleArg : Option String) (content : String)
    (isStdin : Bool) (file : String) :
    (∀ t, titleArg = some t → t ≠ "" →
      resolve_title titleArg content isStdin file = t)
    ∧ (pyTruthyOpt titleArg = false →
        ∀ h, extract_title content = some h →
          resolve_title titleArg content isStdin file = h)
    ∧ (pyTruthyOpt titleArg = false → extract_title content = none →
        resolve_title titleArg content isStdin file
          = (if isStdin then "stdin-drop" else pathStem file)) := by
  refine ⟨?_, ?_, ?_⟩
  · intro t ht hne
    subst ht
    simp [resolve_title, pyOrS, hne]
  · intro hfalsy h hh
    have hne := extract_title_ne_empty content h hh
    cases titleArg with
    | none => simp [resolve_title, pyOrS, hh, hne]
    | some s =>
      have hse : s = "" := by simpa [pyTruthyOpt] using hfalsy
      subst hse
      simp [resolve_title, pyOrS, hh, hne]
  · intro hfalsy hnone
    cases titleArg with
    | none => simp [resolve_title, pyOrS, hnone]
    | some s =>
      have hse : s = "" := by simpa [pyTruthyOpt] using hfalsy
      subst hse
      simp [resolve_title, pyOrS, hnone]

/-- Witness for C2: the three precedence levels at concrete inputs. -/
theorem resolve_title_precedence_witness :
    resolve_title (some "T") "x" false "f.md" = "T"
    ∧ resolve_title none "# Foo\nbody" false "f.md" = "Foo"
    ∧ resolve_title none "plain" true "" = "stdin-drop" :=
  ⟨(resolve_title_precedence (some "T") "x" false "f.md").1 "T" rfl (by decide),
   (resolve_title_precedence none "# Foo\nbody" false "f.md").2.1 (by decide)
      "Foo" (by decide),
   (resolve_title_precedence none "plain" true "").2.2 (by decide) (by decide)⟩

/-- C8 (upsert, modelled from the spec): applying upsert twice with the
identical record equals applying it once, and the result contains exactly
one record with that id, equal to the applied record, positioned last. -/
theorem upsert_idempotent (m : List LocalRecord) (r : LocalRecord) :
    upsert (upsert m r) r = upsert m r
    ∧ (upsert m r).filter (fun x => x.id = r.id) = [r]
    ∧ (upsert m r).getLast? = some r := by
  refine ⟨?_, ?_, ?_⟩
  · simp [upsert, List.filter_append, List.filter_filter]
  · simp only [upsert, List.filter_append, List.filter_filter]
    simp
  · simp [upsert, List.getLast?_concat]

/-- C9: at the command-line interface an explicitly supplied empty-string
title is treated the same as an absent title: the whole run behaves
identically, because the precedence test uses truthiness. -/
theorem empty_title_like_absent (k : String) (args : Args)
    (fsys : String → Option String) (stdinText : String)
    (hub : HubCall → HubReply) :
    run_main k { args with title := some "" } fsys stdinText hub
      = run_main k { args with title := none } fsys stdinText hub := by
  have hbuild : ∀ content, build_drop_request { args with title := some "" } content
      = build_drop_request { args with title := none } content := by
    intro content
    simp [build_drop_request, resolve_title, pyOrS]
  simp [run_main, run_read, run_list, run_drop, listParams, hbuild]

theorem finishCall_calls (call : HubCall) (reply : HubReply) :
    (finishCall call reply).calls = [call] := by
  cases reply <;> rfl

/-- C3: with sender unset and type unset, the constructed record has
`from_agent` equal to claude-code and `drop_type` equal to context; and for
the file note.md whose content has first heading `# Hello`, the record
POSTed to the hub also has title Hello. -/
theorem drop_record_defaults :
    (∀ (stdinMode : Bool) (file titleArg tags : Option String) (content : String)
        (lst : Bool) (since : Option String) (lim : Int) (did : Option String),
      (build_drop_request
          ⟨file, stdinMode, none, none, titleArg, tags, lst, since, lim, did⟩
          content).from_agent = "claude-code"
      ∧ (build_drop_request
          ⟨file, stdinMode, none, none, titleArg, tags, lst, since, lim, did⟩
          content).drop_type = "context")
    ∧ (∀ (k : String) (fsys : String → Option String) (hub : HubCall → HubReply),
        k ≠ "" → fsys "note.md" = some "# Hello\nbody" →
        (run_main k ⟨some "note.md", false, none, none, none, none, false, none, 20, none⟩
            fsys "" hub).calls
          = [⟨"POST", "/api/agent-drops",
              some ⟨"claude-code", "Hello", "# Hello\nbody", "context", []⟩, []⟩]) := by
  constructor
  · intro stdinMode file titleArg tags content lst since lim did
    exact ⟨rfl, rfl⟩
  · intro k fsys hub hk hf
    simp only [run_main, hk, run_drop, pyTruthyOpt, if_neg, if_false, Option.getD_some,
      Bool.false_eq_true, if_true, reduceIte, hf, finishCall_calls,
      show (("note.md" : String) == "") = false by decide]
    simp only [Bool.not_false, Bool.or_false, reduceIte, finishCall_calls]
    decide

/-- Witness for C3 at a concrete key, filesystem and hub. -/
theorem drop_record_defaults_witness :
    (run_main "k" ⟨some "note.md", false, none, none, none, none, false, none, 20, none⟩
        (fun p => if p = "note.md" then some "# Hello\nbody" else none) ""
        (fun _ => HubReply.ok)).calls
      = [⟨"POST", "/api/agent-drops",
          some ⟨"claude-code", "Hello", "# Hello\nbody", "context", []⟩, []⟩] :=
  drop_record_defaults.2 "k"
    (fun p => if p = "note.md" then some "# Hello\nbody" else none)
    (fun _ => HubReply.ok) (by decide) (by decide)

theorem scanConfig_eq (fs : List (Option (List String))) :
    scanConfig fs
      = (((fs.filterMap id).map fileKeyValue).filter (fun v => !(v == ""))).headD "" := by
  induction fs with
  | nil => rfl
  | cons f rest ih =>
    cases f with
    | none => simpa [scanConfig] using ih
    | some lines =>
      by_cases hv : fileKeyValue lines = ""
      · simp [scanConfig, hv, ih]
      · simp [scanConfig, hv]

/-- C4 counterexample: with both environment variables set, the primary one
set to the empty string is skipped, so its value is not used; and the value
of the first matching assignment line (empty in the first file, `zzz` on the
following line of the same file) is not used either, because each file
contributes only its first matching line and empty contributions make the
scan move to the next file. -/
theorem resolve_api_key_claim_cex :
    resolve_api_key (some "") (some "alias-key") [] = "alias-key"
    ∧ resolve_api_key none none
        [some ["INGEST_API_KEY=", "INGEST_API_KEY=zzz"],
         some ["INGEST_API_KEY=abc"]] = "abc" := by
  exact ⟨by decide, by decide⟩

/-- C4 (amended): the primary environment variable is used when set
non-empty; the secondary alias when it is set non-empty and the primary is
unset or empty; otherwise the candidate configuration files are scanned in
order, each existing file contributing the stripped, unquoted value of its
first matching assignment line, and the first non-empty contributed value
is used. -/
theorem resolve_api_key_correct (d i : Option String)
    (fs : List (Option (List String))) :
    (∀ v, d = some v → v ≠ "" → resolve_api_key d i fs = v)
    ∧ (pyTruthyOpt d = false → ∀ v, i = some v → v ≠ "" →
        resolve_api_key d i fs = v)
    ∧ (pyTruthyOpt d = false → pyTruthyOpt i = false →
        resolve_api_key d i fs
          = (((fs.filterMap id).map fileKeyValue).filter (fun v => !(v == ""))).headD "") := by
  refine ⟨?_, ?_, ?_⟩
  · intro v hv hne
    subst hv
    simp [resolve_api_key, hne]
  · intro hd v hv hne
    subst hv
    cases d with
    | none => simp [resolve_api_key, hne]
    | some s =>
      have hse : s = "" := by simpa [pyTruthyOpt] using hd
      subst hse
      simp [resolve_api_key, hne]
  · intro hd hi
    rw [← scanConfig_eq]
    cases d with
    | none =>
      cases i with
      | none => simp [resolve_api_key]
      | some s =>
        have hse : s = "" := by simpa [pyTruthyOpt] using hi
        subst hse
        simp [resolve_api_key]
    | some s =>
      have hse : s = "" := by simpa [pyTruthyOpt] using hd
      subst hse
      cases i with
      | none => simp [resolve_api_key]
      | some s2 =>
        have hse2 : s2 = "" := by simpa [pyTruthyOpt] using hi
        subst hse2
        simp [resolve_api_key]

/-- Witness for C4: the three precedence levels at concrete inputs. -/
theorem resolve_api_key_correct_witness :
    resolve_api_key (some "K1") (some "K2") [] = "K1"
    ∧ resolve_api_key none (some "K2") [] = "K2"
    ∧ resolve_api_key none none [none, some ["INGEST_API_KEY=abc"]] = "abc" :=
  ⟨(resolve_api_key_correct (some "K1") (some "K2") []).1 "K1" rfl (by decide),
   (resolve_api_key_correct none (some "K2") []).2.1 (by decide) "K2" rfl (by decide),
   (resolve_api_key_correct none none [none, some ["INGEST_API_KEY=abc"]]).2.2
      (by decide) (by decide)⟩

/-- C5: when no API key resolves from the environment variables or the
configuration files, every invocation exits with status 1 after printing a
diagnostic to the error stream, and issues no hub request. -/
theorem missing_key_aborts (dropKey ingestKey : Option String)
    (files : List (Option (List String))) (args : Args)
    (fsys : String → Option String) (stdinText : String)
    (hub : HubCall → HubReply)
    (h : resolve_api_key dropKey ingestKey files = "") :
    (run_cli dropKey ingestKey files args fsys stdinText hub).exitCode = 1
    ∧ (run_cli dropKey ingestKey files args fsys stdinText hub).calls = []
    ∧ (run_cli dropKey ingestKey files args fsys stdinText hub).stderr ≠ [] := by
  simp [run_cli, h, run_main]

/-- Witness for C5 at a concrete read invocation with nothing set. -/
theorem missing_key_aborts_witness :
    (run_cli none none [] ⟨none, false, none, none, none, none, false, none, 20, some "x"⟩
        (fun _ => none) "" (fun _ => HubReply.ok)).exitCode = 1
    ∧ (run_cli none none [] ⟨none, false, none, none, none, none, false, none, 20, some "x"⟩
        (fun _ => none) "" (fun _ => HubReply.ok)).calls = []
    ∧ (run_cli none none [] ⟨none, false, none, none, none, none, false, none, 20, some "x"⟩
        (fun _ => none) "" (fun _ => HubReply.ok)).stderr ≠ [] :=
  missing_key_aborts none none []
    ⟨none, false, none, none, none, none, false, none, 20, some "x"⟩
    (fun _ => none) "" (fun _ => HubReply.ok) (by decide)

/-- C6: whenever a hub request is issued and the hub answers with a
non-success status, the command exits with status 1 and the error body is
printed verbatim inside the diagnostic on the error stream. -/
theorem hub_error_aborts (k : String) (args : Args)
    (fsys : String → Option String) (stdinText : String) (c : Nat) (b : String)
    (hcalls : (run_main k args fsys stdinText (fun _ => HubReply.err c b)).calls ≠ []) :
    (run_main k args fsys stdinText (fun _ => HubReply.err c b)).exitCode = 1
    ∧ (run_main k args fsys stdinText (fun _ => HubReply.err c b)).stderr
        = ["API error (" ++ toString c ++ "): " ++ b] := by
  by_cases hk : k = ""
  · simp [run_main, hk] at hcalls
  · by_cases h1 : pyTruthyOpt args.drop_id = true
    · simp [run_main, hk, h1, run_read, finishCall, apiErrorMsg]
    · by_cases h2 : args.list = true
      · simp [run_main, hk, h1, h2, run_list, finishCall, apiErrorMsg]
      · by_cases h3 : (pyTruthyOpt args.file || args.stdin) = true
        · by_cases h4 : args.stdin = true
          · simp [run_main, hk, h1, h2, h3, run_drop, h4, finishCall, apiErrorMsg]
          · have hstF : args.stdin = false := by simpa using h4
            have h5 : pyTruthyOpt args.file = true := by simpa [hstF] using h3
            simp only [run_main, hk, h1, h2, h3, run_drop, hstF, h5, Bool.true_or,
              Bool.false_eq_true, if_false, if_true, reduceIte] at hcalls ⊢
            cases hfs : fsys (args.file.getD "") with
            | none =>
              rw [hfs] at hcalls
              simp at hcalls
            | some content =>
              simp [finishCall, apiErrorMsg]
        · simp [run_main, hk, h1, h2, h3] at hcalls

/-- Witness for C6 at a concrete read invocation and a failing hub. -/
theorem hub_error_aborts_witness :
    (run_main "k" ⟨none, false, none, none, none, none, false, none, 20, some "x"⟩
        (fun _ => none) "" (fun _ => HubReply.err 500 "boom")).exitCode = 1
    ∧ (run_main "k" ⟨none, false, none, none, none, none, false, none, 20, some "x"⟩
        (fun _ => none) "" (fun _ => HubReply.err 500 "boom")).stderr
        = ["API error (500): boom"] :=
  hub_error_aborts "k" ⟨none, false, none, none, none, none, false, none, 20, some "x"⟩
    (fun _ => none) "" 500 "boom" (by decide)

/-- C7: when the positional file argument names a path that does not exist
and stdin mode is not selected, the drop command prints the missing-file
diagnostic to the error stream and exits with status 1, issuing no hub
request. -/
theorem missing_file_aborts (k : String) (args : Args)
    (fsys : String → Option String) (stdinText : String)
    (hub : HubCall → HubReply) (f : String)
    (hk : k ≠ "") (hread : pyTruthyOpt args.drop_id = false)
    (hlist : args.list = false) (hstdin : args.stdin = false)
    (hfile : args.file = some f) (hf : f ≠ "") (hmiss : fsys f = none) :
    run_main k args fsys stdinText hub
      = ⟨1, [], ["File not found: " ++ f], false⟩ := by
  have hfiletruthy : pyTruthyOpt (some f) = true := by simp [pyTruthyOpt, hf]
  simp [run_main, hk, hread, hlist, run_drop, hstdin, hfile, hfiletruthy, hmiss]

/-- Witness for C7 at a concrete missing file. -/
theorem missing_file_aborts_witness :
    run_main "k" ⟨some "nope.md", false, none, none, none, none, false, none, 20, none⟩
        (fun _ => none) "" (fun _ => HubReply.ok)
      = ⟨1, [], ["File not found: nope.md"], false⟩ :=
  missing_file_aborts "k"
    ⟨some "nope.md", false, none, none, none, none, false, none, 20, none⟩
    (fun _ => none) "" (fun _ => HubReply.ok) "nope.md"
    (by decide) (by decide) (by decide) (by decide) (by decide) (by decide) (by decide)

/-- C10: dispatch precedence. A truthy read-by-id request is executed over
every other mode; with read absent a list request is executed over a
file/stdin drop; with both absent a file/stdin drop runs; with none of
these the help text is shown and the process exits successfully. -/
theorem dispatch_precedence (k : String) (args : Args)
    (fsys : String → Option String) (stdinText : String)
    (hub : HubCall → HubReply) (hk : k ≠ "") :
    (∀ did, args.drop_id = some did → did ≠ "" →
      (run_main k args fsys stdinText hub).calls.map (fun call => (call.method, call.path))
        = [("GET", "/api/agent-drops/" ++ did)])
    ∧ (pyTruthyOpt args.drop_id = false → args.list = true →
      (run_main k args fsys stdinText hub).calls.map (fun call => (call.method, call.path))
        = [("GET", "/api/agent-drops")])
    ∧ (pyTruthyOpt args.drop_id = false → args.list = false → args.stdin = true →
      (run_main k args fsys stdinText hub).calls.map (fun call => (call.method, call.path))
        = [("POST", "/api/agent-drops")])
    ∧ (pyTruthyOpt args.drop_id = false → args.list = false → args.stdin = false →
        pyTruthyOpt args.file = false →
      run_main k args fsys stdinText hub = ⟨0, [], [], true⟩) := by
  refine ⟨?_, ?_, ?_, ?_⟩
  · intro did hdid hne
    have h1 : pyTruthyOpt (some did) = true := by simp [pyTruthyOpt, hne]
    simp [run_main, hk, hdid, h1, run_read, finishCall_calls]
  · intro h1 h2
    simp [run_main, hk, h1, h2, run_list, finishCall_calls]
  · intro h1 h2 h3
    simp [run_main, hk, h1, h2, run_drop, h3, finishCall_calls]
  · intro h1 h2 h3 h4
    simp [run_main, hk, h1, h2, h3, h4]

/-- Witness for C10: all four dispatch situations at concrete arguments;
in the first, the list flag, a file and stdin are all supplied together
with the read id, and the read request still wins. -/
theorem dispatch_precedence_witness :
    (run_main "k" ⟨some "f.md", true, none, none, none, none, true, none, 20, some "abc"⟩
        (fun _ => none) "" (fun _ => HubReply.ok)).calls.map
        (fun call => (call.method, call.path))
      = [("GET", "/api/agent-drops/abc")]
    ∧ (run_main "k" ⟨some "f.md", true, none, none, none, none, true, none, 20, none⟩
        (fun _ => none) "" (fun _ => HubReply.ok)).calls.map
        (fun call => (call.method, call.path))
      = [("GET", "/api/agent-drops")]
    ∧ (run_main "k" ⟨none, true, none, none, none, none, false, none, 20, none⟩
        (fun _ => none) "body" (fun _ => HubReply.ok)).calls.map
        (fun call => (call.method, call.path))
      = [("POST", "/api/agent-drops")]
    ∧ run_main "k" ⟨none, false, none, none, none, none, false, none, 20, none⟩
        (fun _ => none) "" (fun _ => HubReply.ok) = ⟨0, [], [], true⟩ :=
  ⟨(dispatch_precedence "k" ⟨some "f.md", true, none, none, none, none, true, none, 20, some "abc"⟩
      (fun _ => none) "" (fun _ => HubReply.ok) (by decide)).1 "abc" rfl (by decide),
   (dispatch_precedence "k" ⟨some "f.md", true, none, none, none, none, true, none, 20, none⟩
      (fun _ => none) "" (fun _ => HubReply.ok) (by decide)).2.1 (by decide) (by decide),
   (dispatch_precedence "k" ⟨none, true, none, none, none, none, false, none, 20, none⟩
      (fun _ => none) "body" (fun _ => HubReply.ok) (by decide)).2.2.1
      (by decide) (by decide) (by decide),
   (dispatch_precedence "k" ⟨none, false, none, none, none, none, false, none, 20, none⟩
      (fun _ => none) "" (fun _ => HubReply.ok) (by decide)).2.2.2
      (by decide) (by decide) (by decide) (by decide)⟩

end DropPy
